import Mathlib

/-!
Shallow embedding of the LCREE perfume-production ERP backend core:
the production-commit transaction (backend/production/views.py,
ProductionCommitView.post), the order-receipt cost allocation
(backend/orders/views.py, OrderViewSet.receive), and the OilBatch
inventory operations (backend/fragrances/models.py).

Modelling conventions:
* Decimal money/quantity columns are embedded as exact rationals.
* A database row set is a Lean list; primary keys are explicit fields.
* A Django `transaction.atomic()` block follows Django semantics
  literally: a normal exit of the block (including an early
  `return Response(...)`) commits the state reached so far, while a
  raised exception rolls the whole block back to the pre-transaction
  state and surfaces as an HTTP 500 through the outer `except` clause.
* ORM calls are embedded by their store-level effect: `save()` writes
  the row; `F(col) - x` updates denote the persisted decrement;
  `save(update_fields=[...])` persists only the listed columns.
* Structured error payloads are embedded as an inductive carrying the
  numbers that the source interpolates into its f-string messages.
* Fields irrelevant to every claim (fragrance metadata, barcodes,
  audit rows, timestamps other than ordering keys, the print
  dispatcher) are omitted; `received_at` is kept as a rational
  ordering key because the default queryset ordering on OilBatch is
  `[-received_at]` and the commit loop iterates in that order.
-/

namespace LCREE

/-- Status of an oil batch (fragrances/models.py, OilBatchStatus). -/
inductive OilBatchStatus where
  | AVAILABLE
  | LOCKED
  | EXHAUSTED
  deriving DecidableEq, Repr

/-- One lot of fragrance oil (fragrances/models.py, OilBatch).
`received_at` is the ordering key used by the default queryset
ordering `[-received_at]`. -/
structure OilBatch where
  id : Nat
  qty_ml : ℚ
  cost_total : ℚ
  cost_per_ml : ℚ
  status : OilBatchStatus
  is_deleted : Bool
  deleted_at : Option ℚ
  received_at : ℚ
  deriving DecidableEq, Repr

/-- `OilBatch.save`: the model save hook recomputes `cost_per_ml` as
`cost_total / qty_ml` whenever both are truthy (nonzero), then writes
the row (fragrances/models.py lines 418-424). -/
def OilBatch.save (b : OilBatch) : OilBatch :=
  if b.cost_total ≠ 0 ∧ b.qty_ml ≠ 0 then
    { b with cost_per_ml := b.cost_total / b.qty_ml }
  else b

/-- `OilBatch.consume` (fragrances/models.py lines 483-505): guarded
decrement.  The final `save(update_fields=[qty_ml, status])`
persists only those two columns, so the `cost_per_ml` recomputation
of the save hook is not persisted and is not modelled here. -/
def OilBatch.consume (b : OilBatch) (amount_ml : ℚ) : Bool × OilBatch :=
  if b.status ≠ OilBatchStatus.AVAILABLE then
    (false, b)
  else if amount_ml > b.qty_ml then
    (false, b)
  else
    let q := b.qty_ml - amount_ml
    let st := if q ≤ 0 then OilBatchStatus.EXHAUSTED else b.status
    (true, { b with qty_ml := q, status := st })

/-- `OilBatch.soft_delete` (fragrances/models.py lines 426-437): marks
the batch deleted and forces status to EXHAUSTED.  `deleted_by` is not
modelled; `t` stands for `timezone.now()`. -/
def OilBatch.soft_delete (b : OilBatch) (t : ℚ) : OilBatch :=
  { b with is_deleted := true, deleted_at := some t,
           status := OilBatchStatus.EXHAUSTED }

/-- `OilBatch.restore` (fragrances/models.py lines 439-445): clears the
deletion marker and forces status to AVAILABLE unconditionally. -/
def OilBatch.restore (b : OilBatch) : OilBatch :=
  { b with is_deleted := false, deleted_at := none,
           status := OilBatchStatus.AVAILABLE }

/-- A fungible stocked item (materials/models.py, Material). -/
structure Material where
  id : Nat
  name : String
  stock_qty : ℚ
  cost_per_unit : ℚ
  deriving DecidableEq, Repr

/-- Kinds of recipe components (containers/models.py, ComponentKind).
Only the oil placeholder is distinguished by the commit logic. -/
inductive ComponentKind where
  | PLACEHOLDER_OIL
  | ALCOHOL
  | WATER
  | FIXATEUR
  | PACKAGING_BOTTLE
  | PACKAGING_PART
  | PACKAGING_LABEL
  | PACKAGING_BOX
  | OTHER
  deriving DecidableEq, Repr

/-- One bill-of-materials entry (containers/models.py,
RecipeComponent).  `material_id` is `none` for the oil placeholder. -/
structure RecipeComponent where
  component_kind : ComponentKind
  material_id : Option Nat
  qty_required : ℚ
  unit : String
  deriving DecidableEq, Repr

/-- A container type (containers/models.py, Container). -/
structure Container where
  id : Nat
  fill_volume_ml : ℚ
  loss_factor_oil_percent : ℚ
  price_retail : ℚ
  deriving DecidableEq, Repr

/-- A recipe row together with its container foreign key and its
component set (containers/models.py, Recipe). -/
structure Recipe where
  container : Container
  active : Bool
  components : List RecipeComponent
  deriving DecidableEq, Repr

/-- Status of a production run (production/models.py,
ProductionStatus). -/
inductive ProductionStatus where
  | DRAFT
  | READY
  | FAILED
  | DONE
  deriving DecidableEq, Repr

/-- One production run (production/models.py, Production). -/
structure Production where
  id : Nat
  qty : Nat
  status : ProductionStatus
  oil_cost_used : ℚ
  non_oil_cost_used : ℚ
  total_production_cost : ℚ
  loss_factor_oil_percent : ℚ
  deriving DecidableEq, Repr

/-- The generic foreign key of a usage row, pointing at either an oil
batch or a material (production/models.py, content_type/object_id). -/
inductive ResourceRef where
  | oil (id : Nat)
  | material (id : Nat)
  deriving DecidableEq, Repr

/-- Append-only consumption ledger entry (production/models.py,
ProductionComponentUsage). -/
structure Usage where
  production_id : Nat
  ref : ResourceRef
  qty_used : ℚ
  unit : String
  before_stock : ℚ
  after_stock : ℚ
  unit_cost_at_use : ℚ
  cost_total_at_use : ℚ
  deriving DecidableEq, Repr

/-- One finished unit (production/models.py, ProducedItem); `uid`
carries the DB-level unique constraint. -/
structure ProducedItem where
  production_id : Nat
  uid : String
  unit_cost_snapshot : ℚ
  price_at_sale : ℚ
  deriving DecidableEq, Repr

/-- One sale row (production/models.py, Sale). -/
structure Sale where
  qty : Nat
  price_total : ℚ
  cost_total : ℚ
  profit_total : ℚ
  deriving DecidableEq, Repr

/-- The persisted tables touched by the production commit. -/
structure DB where
  oil_batches : List OilBatch
  materials : List Material
  productions : List Production
  usages : List Usage
  produced_items : List ProducedItem
  sales : List Sale
  deriving DecidableEq, Repr

/-- Auto-increment primary key for a new Production row. -/
def DB.nextProductionId (db : DB) : Nat :=
  (db.productions.foldr (fun p acc => max p.id acc) 0) + 1

/-- `Recipe.objects.get(container_id=..., active=True)`
(production/views.py lines 70-73): Django `get` succeeds exactly when
one row matches; zero rows (DoesNotExist) or several
(MultipleObjectsReturned) raise. -/
def getActiveRecipe (recipes : List Recipe) (container_id : Nat) : Option Recipe :=
  match recipes.filter (fun r => r.container.id = container_id && r.active) with
  | [r] => some r
  | _ => none

/-- Stable insertion step for descending `received_at` order. -/
def insertRecvDesc (b : OilBatch) : List OilBatch → List OilBatch
  | [] => [b]
  | x :: xs =>
    if b.received_at > x.received_at then b :: x :: xs
    else x :: insertRecvDesc b xs

/-- The default queryset ordering of OilBatch,
`Meta.ordering = [-received_at]` (fragrances/models.py line 393):
rows arrive sorted by `received_at` descending. -/
def sortRecvDesc : List OilBatch → List OilBatch
  | [] => []
  | b :: bs => insertRecvDesc b (sortRecvDesc bs)

/-- `OilBatch.objects.select_for_update().filter(id__in=ids,
status=AVAILABLE)` (production/views.py lines 81-84), iterated in
the default `-received_at` ordering.  Each stored row appears at most
once regardless of duplicates in `ids`. -/
def candidateBatches (db : DB) (ids : List Nat) : List OilBatch :=
  sortRecvDesc (db.oil_batches.filter
    (fun b => ids.contains b.id && b.status = OilBatchStatus.AVAILABLE))

/-- `oil_required_per_unit * qty` (production/views.py lines 77-78). -/
def requiredOil (container : Container) (qty : Nat) : ℚ :=
  container.fill_volume_ml * (1 + container.loss_factor_oil_percent / 100) * qty

/-- `sum(batch.qty_ml for batch in oil_batches)`
(production/views.py line 87). -/
def availableOil (db : DB) (ids : List Nat) : ℚ :=
  ((candidateBatches db ids).map OilBatch.qty_ml).sum

/-- The structured content of the 400-level error payloads of the
production commit; each constructor carries exactly the numbers the
source interpolates into its f-string message
(production/views.py lines 89-91 and 147-149). -/
inductive ClientError where
  | insufficientOil (required available : ℚ)
  | insufficientMaterial (name : String) (needed available : ℚ)
  deriving DecidableEq, Repr

/-- Outcome of the commit endpoint.  Each constructor carries the
persisted database after the request:
* `ok`: the transaction committed normally (HTTP 200);
* `err400`: an early `return Response(status=400)` taken inside the
  `transaction.atomic()` block — a normal block exit, so Django
  commits whatever state the block reached;
* `err500`: an exception escaped the atomic block, which rolled the
  transaction back before the outer `except` produced the 500
  response, so the carried state is the pre-request one. -/
inductive CommitResult where
  | ok (db : DB) (production_id : Nat) (produced_items : Nat)
       (total_cost total_revenue profit : ℚ)
  | err400 (e : ClientError) (db : DB)
  | err500 (db : DB)
  deriving DecidableEq, Repr

/-- The oil-consumption loop (production/views.py lines 104-131).
For each locked candidate batch, while oil is still needed, the
batch row is updated and a ProductionComponentUsage row is inserted.
After line 115 `batch.qty_ml` is a CombinedExpression over F(qty_ml)
— Django keeps F() assignments on the instance after `save()` — and
lines 124-125 pass it as before_stock/after_stock; the INSERT
compiler resolves F(qty_ml) against ProductionComponentUsage, which
has no such column, and raises FieldError inside the atomic block.
So the first iteration that reaches the insert aborts the whole
transaction, and the loop finishes without any persisted mutation
exactly when no candidate is iterated with oil still needed.
Returns `true` when the aborting insert is reached. -/
def consumeOilLoop : List OilBatch → ℚ → Bool
  | [], _ => false
  | _ :: _, remaining => if remaining ≤ 0 then false else true

/-- Outcome of the material loop: completed without effect, returned
the 400 shortfall response, or raised. -/
inductive MatOutcome where
  | ok
  | ret400 (e : ClientError)
  | exc
  deriving DecidableEq, Repr

/-- The material-consumption loop (production/views.py lines
133-167), reached only when the oil loop inserted nothing.  Each
non-oil component locks and checks its material: a missing material
row or a null material reference raises; a shortfall returns the 400
response (a normal exit of the atomic block — at this point nothing
beyond the Production row has been written, because any previously
processed component raised at its own usage insert); otherwise the
stock UPDATE succeeds but the following usage-row insert passes
`material.stock_qty` — an F(stock_qty) CombinedExpression after
line 152 — as before/after stock (lines 161-162) and raises
FieldError.  The loop therefore never persists a material change:
it completes (`ok`) exactly when every component is the oil
placeholder. -/
def materialLoop (qty : Nat) : List RecipeComponent → List Material → MatOutcome
  | [], _ => MatOutcome.ok
  | c :: rest, mats =>
    if c.component_kind = ComponentKind.PLACEHOLDER_OIL then
      materialLoop qty rest mats
    else
      match c.material_id with
      | none => MatOutcome.exc
      | some mid =>
        match mats.find? (fun m => m.id = mid) with
        | none => MatOutcome.exc
        | some m =>
          let qty_needed := c.qty_required * qty
          if m.stock_qty < qty_needed then
            MatOutcome.ret400
              (ClientError.insufficientMaterial m.name qty_needed m.stock_qty)
          else
            MatOutcome.exc

/-- The produced-item loop (production/views.py lines 181-199).
Each iteration evaluates `secrets.choices(...)` to draw a uid, but
the secrets module has no attribute `choices` (only `choice`), so
uid generation raises AttributeError before any ProducedItem insert.
With at least one unit requested the loop aborts the transaction
(`none`); no insert — and hence no IntegrityError uid collision —
is reachable. -/
def producedLoop : Nat → DB → Option DB
  | 0, db => some db
  | _ + 1, _ => none

/-- Input of the commit endpoint (production/views.py lines 57-65);
`fragrance_id` only flows into rows not modelled here. -/
structure CommitRequest where
  container_id : Nat
  qty : Nat
  oil_batch_ids : List Nat
  deriving DecidableEq, Repr

/-- Produced-item and sale creation (production/views.py lines
177-212): runs the produced-item loop, which raises at its first uid
draw, so with `qty ≥ 1` the transaction rolls back to `db` and the
endpoint returns 500.  The sale arm mirrors lines 203-212 but is
unreachable for `qty ≥ 1`; both cost accumulators are still zero
whenever this stage is reached, because any non-zero consumption
raised FieldError at its usage insert. -/
def commitItems (recipe : Recipe) (req : CommitRequest) (db : DB)
    (pid : Nat) (db4 : DB) : CommitResult :=
  match producedLoop req.qty db4 with
  | none => CommitResult.err500 db
  | some db5 =>
    let price_total := (req.qty : ℚ) * recipe.container.price_retail
    let sale : Sale :=
      { qty := req.qty, price_total := price_total
        cost_total := 0, profit_total := price_total - 0 }
    CommitResult.ok { db5 with sales := db5.sales ++ [sale] } pid req.qty 0
      price_total (price_total - 0)

/-- Production cost finalisation (production/views.py lines
169-179): writes the (still zero) cost totals and the DONE status
onto the Production row, then computes
`total_production_cost / qty`, which raises ZeroDivisionError —
rollback, 500 — when the requested quantity is zero. -/
def commitFinalize (recipe : Recipe) (req : CommitRequest) (db : DB)
    (pid : Nat) (db1 : DB) : CommitResult :=
  let db4 := { db1 with productions := db1.productions.map (fun p =>
    if p.id = pid then
      { p with oil_cost_used := 0, non_oil_cost_used := 0
               total_production_cost := 0, status := ProductionStatus.DONE }
    else p) }
  if req.qty = 0 then CommitResult.err500 db
  else commitItems recipe req db pid db4

/-- The mutation phase (production/views.py lines 93-167): creates
the Production row in READY status, then runs the oil and material
loops.  If the oil loop reaches a usage insert the transaction
aborts (FieldError) and rolls back to `db`.  Otherwise the material
loop either raises (rollback to `db`), or returns the 400 shortfall
response — a normal exit of the atomic block, which commits the
state reached so far: `db` plus the READY Production row — or
completes untouched, and finalisation proceeds. -/
def commitConsume (recipe : Recipe) (req : CommitRequest) (db : DB) : CommitResult :=
  let pid := db.nextProductionId
  let production : Production :=
    { id := pid, qty := req.qty, status := ProductionStatus.READY
      oil_cost_used := 0, non_oil_cost_used := 0
      total_production_cost := 0
      loss_factor_oil_percent := recipe.container.loss_factor_oil_percent }
  let db1 := { db with productions := db.productions ++ [production] }
  if consumeOilLoop (candidateBatches db req.oil_batch_ids)
      (requiredOil recipe.container req.qty) then
    CommitResult.err500 db
  else
    match materialLoop req.qty recipe.components db1.materials with
    | MatOutcome.exc => CommitResult.err500 db
    | MatOutcome.ret400 e => CommitResult.err400 e db1
    | MatOutcome.ok => commitFinalize recipe req db pid db1

/-- The oil sufficiency gate (production/views.py lines 75-91):
computes the required volume, sums the locked candidates and rejects
with the insufficient-oil error — before any mutation — when they
fall short. -/
def commitAfterRecipe (recipe : Recipe) (req : CommitRequest) (db : DB) : CommitResult :=
  if availableOil db req.oil_batch_ids < requiredOil recipe.container req.qty then
    CommitResult.err400
      (ClientError.insufficientOil (requiredOil recipe.container req.qty)
        (availableOil db req.oil_batch_ids)) db
  else commitConsume recipe req db

/-- `ProductionCommitView.post` (production/views.py lines 45-253),
the production-commit transaction.  `recipes` is the Recipe table
and `db` the pre-request state; `uids` stands for the entropy the
uid generator would draw, kept in the signature although the source
never consumes it — uid generation raises AttributeError before
drawing (`secrets.choices` does not exist).  Control flow follows
the source, staged into `commitAfterRecipe` → `commitConsume` →
`commitFinalize` → `commitItems`:
* no active recipe (or several) raises out of the atomic block:
  rollback, HTTP 500;
* insufficient summed oil returns 400 before any write;
* the Production row is then created in status READY; any oil
  consumption aborts at its usage-row insert (FieldError on the
  F-expression stock values): rollback, HTTP 500;
* with no oil to consume, a material shortfall returns 400 from
  inside the atomic block, committing the READY Production row,
  while a sufficiently stocked material aborts at its own usage
  insert: rollback, HTTP 500;
* `qty = 0` raises ZeroDivisionError at the per-item cost division;
* otherwise uid generation raises AttributeError at the first
  produced item: rollback, HTTP 500.
No run ever reaches the sale row or the success response. -/
def commitProduction (recipes : List Recipe) (req : CommitRequest)
    (uids : Nat → String) (db : DB) : CommitResult :=
  match getActiveRecipe recipes req.container_id with
  | none => CommitResult.err500 db
  | some recipe => commitAfterRecipe recipe req db

/-- Projection of any commit outcome onto the persisted state. -/
def CommitResult.db : CommitResult → DB
  | CommitResult.ok db _ _ _ _ _ => db
  | CommitResult.err400 _ db => db
  | CommitResult.err500 db => db

/-- Projection testing for the success outcome. -/
def CommitResult.isOk : CommitResult → Bool
  | CommitResult.ok _ _ _ _ _ _ => true
  | _ => false

/-- Exhaustive outcome analysis of the commit endpoint: every run
returns 500 with the untouched pre-request state, or 400 with the
untouched state, or the material-shortfall 400 carrying the state
plus one READY Production row — the only partial state the endpoint
can persist.  In particular no run ever returns the success
outcome. -/
lemma commitProduction_cases (recipes : List Recipe) (req : CommitRequest)
    (uids : Nat → String) (db : DB) :
    commitProduction recipes req uids db = CommitResult.err500 db ∨
    (∃ e, commitProduction recipes req uids db = CommitResult.err400 e db) ∨
    (∃ e p, commitProduction recipes req uids db =
        CommitResult.err400 e { db with productions := db.productions ++ [p] } ∧
      p.status = ProductionStatus.READY) := by
  unfold commitProduction
  cases hr : getActiveRecipe recipes req.container_id with
  | none => exact Or.inl rfl
  | some recipe =>
    suffices h : commitAfterRecipe recipe req db = CommitResult.err500 db ∨
        (∃ e, commitAfterRecipe recipe req db = CommitResult.err400 e db) ∨
        (∃ e p, commitAfterRecipe recipe req db =
            CommitResult.err400 e { db with productions := db.productions ++ [p] } ∧
          p.status = ProductionStatus.READY) by
      exact h
    unfold commitAfterRecipe
    split
    · exact Or.inr (Or.inl ⟨_, rfl⟩)
    · unfold commitConsume
      dsimp only
      split
      · exact Or.inl rfl
      · split
        · exact Or.inl rfl
        · exact Or.inr (Or.inr ⟨_, _, rfl, rfl⟩)
        · unfold commitFinalize
          dsimp only
          split
          · exact Or.inl rfl
          · unfold commitItems
            rename_i hq
            obtain ⟨k, hk⟩ := Nat.exists_eq_succ_of_ne_zero hq
            rw [hk]
            exact Or.inl rfl

/-- Target kind of an order line (orders/models.py, OrderItem.target_type). -/
inductive TargetType where
  | MATERIAL
  | OILBATCH
  deriving DecidableEq, Repr

/-- A purchase order (orders/models.py, Order).  `received` embeds
`received_at is not null`. -/
structure Order where
  id : Nat
  shipping_cost : ℚ
  customs_cost : ℚ
  received : Bool
  deriving DecidableEq, Repr

/-- One order line (orders/models.py, OrderItem). -/
structure OrderItem where
  id : Nat
  target_type : TargetType
  target_id : Nat
  qty : ℚ
  unit_cost : ℚ
  allocated_shipping : ℚ
  allocated_customs : ℚ
  effective_cost_per_unit : ℚ
  deriving DecidableEq, Repr

/-- The persisted state touched by an order receipt. -/
structure OrderDB where
  order : Order
  items : List OrderItem
  materials : List Material
  oil_batches : List OilBatch
  deriving DecidableEq, Repr

/-- Outcome of the receive endpoint.  As with the commit endpoint,
each constructor carries the persisted state afterwards:
`alreadyReceived` is the 400 guard taken before the atomic block;
`zeroValue` is the 400 return inside the atomic block before any
write; `err500` is an exception, hence a rollback. -/
inductive ReceiveResult where
  | ok (s : OrderDB)
  | alreadyReceived (s : OrderDB)
  | zeroValue (s : OrderDB)
  | err500 (s : OrderDB)
  deriving DecidableEq, Repr

/-- `sum(item.qty * item.unit_cost for item in order.items.all())`
(orders/views.py lines 46-48). -/
def totalItemsValue (items : List OrderItem) : ℚ :=
  (items.map (fun item => item.qty * item.unit_cost)).sum

/-- The per-item allocation written at orders/views.py lines 56-67:
proportional shipping and customs shares and the effective loaded
cost per unit. -/
def allocItem (total ship customs : ℚ) (item : OrderItem) : OrderItem :=
  let item_value := item.qty * item.unit_cost
  let allocation := item_value / total
  let a_ship := ship * allocation
  let a_cust := customs * allocation
  { item with
      allocated_shipping := a_ship
      allocated_customs := a_cust
      effective_cost_per_unit := (item_value + a_ship + a_cust) / item.qty }

/-- Auto-increment primary key for a new OilBatch row. -/
def nextOilBatchId (obs : List OilBatch) : Nat :=
  (obs.foldr (fun b acc => max b.id acc) 0) + 1

/-- `_process_material_receipt` (orders/views.py lines 102-124):
weighted-average cost update, then stock increase; a missing material
row raises. -/
def process_material_receipt (item : OrderItem) (mats : List Material) :
    Option (List Material) :=
  match mats.find? (fun m => m.id = item.target_id) with
  | none => none
  | some material =>
    let old_total_cost := material.stock_qty * material.cost_per_unit
    let new_total_cost := item.qty * item.effective_cost_per_unit
    let total_qty := material.stock_qty + item.qty
    let m1 :=
      if total_qty > 0 then
        { material with cost_per_unit := (old_total_cost + new_total_cost) / total_qty }
      else material
    let m2 := { m1 with stock_qty := m1.stock_qty + item.qty }
    some (mats.map (fun m => if m.id = m2.id then m2 else m))

/-- `_process_oilbatch_receipt` (orders/views.py lines 126-148):
creates one fresh AVAILABLE OilBatch per received line.  The
`fragrance` lookup on the referenced existing batch raises when that
batch does not exist; the generated barcode and the fragrance link
are not modelled.  `now` stands for `timezone.now()`. -/
def process_oilbatch_receipt (now : ℚ) (item : OrderItem)
    (obs : List OilBatch) : Option (List OilBatch) :=
  match obs.find? (fun b => b.id = item.target_id) with
  | none => none
  | some _ =>
    let nb : OilBatch :=
      { id := nextOilBatchId obs
        qty_ml := item.qty
        cost_total := item.qty * item.effective_cost_per_unit
        cost_per_ml := item.effective_cost_per_unit
        status := OilBatchStatus.AVAILABLE
        is_deleted := false
        deleted_at := none
        received_at := now }
    some (obs ++ [OilBatch.save nb])

/-- The allocation loop of the receipt (orders/views.py lines 56-73):
every line item is updated with its allocation and saved, then
dispatched by target type.  A zero-quantity line raises
DivisionByZero at the effective-cost computation; a failed lookup in
a sub-handler raises.  `acc` collects the updated rows in order. -/
def receiveLoop (now total ship customs : ℚ) :
    List OrderItem → List OrderItem → List Material → List OilBatch →
    Option (List OrderItem × List Material × List OilBatch)
  | [], acc, mats, obs => some (acc, mats, obs)
  | item :: rest, acc, mats, obs =>
    if item.qty = 0 then none
    else
      let item2 := allocItem total ship customs item
      match item.target_type with
      | TargetType.MATERIAL =>
        match process_material_receipt item2 mats with
        | none => none
        | some mats2 => receiveLoop now total ship customs rest (acc ++ [item2]) mats2 obs
      | TargetType.OILBATCH =>
        match process_oilbatch_receipt now item2 obs with
        | none => none
        | some obs2 => receiveLoop now total ship customs rest (acc ++ [item2]) mats obs2

/-- `OrderViewSet.receive` (orders/views.py lines 23-100): the
order-receipt transaction.  The already-received guard runs before
the atomic block and mutates nothing; the zero-total-value check
returns 400 from inside the block before any write; any exception in
the loop rolls the whole receipt back; otherwise every line is
allocated and processed and only then is `received_at` set, all
committed together. -/
def receive (now : ℚ) (s : OrderDB) : ReceiveResult :=
  if s.order.received then ReceiveResult.alreadyReceived s
  else
    let total_items_value := totalItemsValue s.items
    if total_items_value = 0 then ReceiveResult.zeroValue s
    else
      match receiveLoop now total_items_value s.order.shipping_cost
          s.order.customs_cost s.items [] s.materials s.oil_batches with
      | none => ReceiveResult.err500 s
      | some (items2, mats2, obs2) =>
        ReceiveResult.ok
          { order := { s.order with received := true }
            items := items2
            materials := mats2
            oil_batches := obs2 }

/-- Projection of a receive outcome onto the persisted state. -/
def ReceiveResult.state : ReceiveResult → OrderDB
  | ReceiveResult.ok s => s
  | ReceiveResult.alreadyReceived s => s
  | ReceiveResult.zeroValue s => s
  | ReceiveResult.err500 s => s

/-! ## Concrete inputs used by the claim evaluations -/

/-- Helper: an all-AVAILABLE oil batch with zero cost basis. -/
def mkBatch (i : Nat) (qty recv : ℚ) : OilBatch :=
  { id := i, qty_ml := qty, cost_total := 0, cost_per_ml := 0
    status := OilBatchStatus.AVAILABLE, is_deleted := false
    deleted_at := none, received_at := recv }

/-- The oil placeholder component of a recipe. -/
def oilComponent (per_unit : ℚ) : RecipeComponent :=
  { component_kind := ComponentKind.PLACEHOLDER_OIL, material_id := none
    qty_required := per_unit, unit := "ML" }

/-- A fresh-uid stream, pairwise collision free. -/
def freshUids : Nat → String := fun i => "U" ++ toString i

/-- The container of the worked example in the specification:
40 ml fill volume, 2 % oil loss factor. -/
def exCont : Container :=
  { id := 5, fill_volume_ml := 40, loss_factor_oil_percent := 2, price_retail := 50 }

/-- An active oil-only recipe for that container. -/
def exRecipe : Recipe :=
  { container := exCont, active := true, components := [oilComponent 40] }

/-- The two candidate batches of the worked example: 200 ml (received
later, hence iterated first under the `-received_at` ordering) and
250 ml. -/
def exDB : DB :=
  { oil_batches := [mkBatch 1 200 2, mkBatch 2 250 1], materials := []
    productions := [], usages := [], produced_items := [], sales := [] }

/-- The worked-example request: quantity 10 against batches 1 and 2. -/
def exReq : CommitRequest := { container_id := 5, qty := 10, oil_batch_ids := [1, 2] }

/-! ## C9 -/

/-- C9: `OilBatch.consume` is a guarded no-op on failure: when the
batch is not AVAILABLE or the requested amount exceeds the remaining
quantity it returns False and leaves the row unchanged; otherwise it
decrements `qty_ml`, switches status to EXHAUSTED exactly when the
result is ≤ 0, and returns True. -/
theorem consume_guarded (b : OilBatch) (amount_ml : ℚ) :
    OilBatch.consume b amount_ml =
      if b.status ≠ OilBatchStatus.AVAILABLE ∨ amount_ml > b.qty_ml then
        (false, b)
      else
        (true, { b with qty_ml := b.qty_ml - amount_ml,
                        status := if b.qty_ml - amount_ml ≤ 0
                                  then OilBatchStatus.EXHAUSTED
                                  else b.status }) := by
  by_cases h1 : b.status = OilBatchStatus.AVAILABLE <;>
    by_cases h2 : amount_ml > b.qty_ml <;>
      simp [OilBatch.consume, h1, h2]

/-! ## C10 -/

/-- C10: `soft_delete` forces status to EXHAUSTED and `restore`
forces it back to AVAILABLE unconditionally, so the
soft-delete/restore round trip maps every prior status — including
LOCKED, and EXHAUSTED at zero quantity — to AVAILABLE and does not
preserve the status field. -/
theorem soft_delete_restore_roundtrip (b : OilBatch) (t : ℚ) :
    (b.soft_delete t).status = OilBatchStatus.EXHAUSTED ∧
    ((b.soft_delete t).restore) =
      { b with is_deleted := false, deleted_at := none,
               status := OilBatchStatus.AVAILABLE } :=
  ⟨rfl, rfl⟩

/-! ## C2 -/

set_option maxRecDepth 100000 in
/-- C2: the worked example cannot run as specified.  The required
volume is computed as claimed (40 x 1.02 x 10 = 408 ml) and the two
candidate batches hold 450 ml, enough to pass the sufficiency gate —
but the first oil iteration reaches the usage-row INSERT, whose
F-expression before/after stock values resolve against
ProductionComponentUsage (which has no such columns) and raise
FieldError: the transaction rolls back and the endpoint returns 500
with both batches untouched.  The commit neither succeeds nor
consumes a single millilitre, and no batch changes status. -/
theorem spec_example_commit_fails :
    requiredOil exCont 10 = 408 ∧
    availableOil exDB exReq.oil_batch_ids = 450 ∧
    consumeOilLoop (candidateBatches exDB exReq.oil_batch_ids)
      (requiredOil exCont exReq.qty) = true ∧
    commitProduction [exRecipe] exReq freshUids exDB = CommitResult.err500 exDB :=
  of_decide_eq_true (by with_unfolding_all rfl)

/-! ## C5 -/

/-- C5: the quantity/status invariant.  `OilBatch.consume` — the only
code that persists an oil-quantity change — preserves it: starting
from a batch with nonnegative quantity whose status is EXHAUSTED
exactly at zero, the result again has nonnegative quantity and is
EXHAUSTED exactly at zero (the guarded decrement never drives the
quantity negative).  The production-commit path cannot violate the
invariant because it never persists any oil-batch change at all:
every consuming run aborts at its usage-row INSERT and rolls back,
so the persisted oil-batch table after any commit request equals the
pre-request one. -/
theorem oil_quantity_status_invariant :
    (∀ (b : OilBatch) (amount_ml : ℚ),
        0 ≤ b.qty_ml →
        (b.status = OilBatchStatus.EXHAUSTED ↔ b.qty_ml = 0) →
        0 ≤ (OilBatch.consume b amount_ml).2.qty_ml ∧
          ((OilBatch.consume b amount_ml).2.status = OilBatchStatus.EXHAUSTED ↔
            (OilBatch.consume b amount_ml).2.qty_ml = 0)) ∧
    (∀ (recipes : List Recipe) (req : CommitRequest) (uids : Nat → String) (db : DB),
        (commitProduction recipes req uids db).db.oil_batches = db.oil_batches) := by
  constructor
  · intro b amount_ml h0 hiff
    unfold OilBatch.consume
    split_ifs with h1 h2
    · exact ⟨h0, hiff⟩
    · exact ⟨h0, hiff⟩
    · push_neg at h1 h2
      dsimp only
      have hq0 : (0 : ℚ) ≤ b.qty_ml - amount_ml := sub_nonneg.mpr h2
      refine ⟨hq0, ?_⟩
      by_cases hz : b.qty_ml - amount_ml ≤ 0
      · rw [if_pos hz]
        have hq : b.qty_ml - amount_ml = 0 := le_antisymm hz hq0
        simp [hq]
      · rw [if_neg hz]
        rw [h1]
        constructor
        · intro hc
          exact absurd hc (by decide)
        · intro hc
          exact absurd (le_of_eq hc) hz
  · intro recipes req uids db
    rcases commitProduction_cases recipes req uids db with h | ⟨e, h⟩ | ⟨e, p, h, hst⟩ <;>
      rw [h] <;> rfl

/-- C5 witness: the invariant preservation at a concrete full
consumption (10 ml batch, 10 ml drawn: quantity 0, EXHAUSTED). -/
theorem oil_quantity_status_invariant_witness :
    0 ≤ (OilBatch.consume (mkBatch 1 10 1) 10).2.qty_ml ∧
    ((OilBatch.consume (mkBatch 1 10 1) 10).2.status = OilBatchStatus.EXHAUSTED ↔
      (OilBatch.consume (mkBatch 1 10 1) 10).2.qty_ml = 0) :=
  oil_quantity_status_invariant.1 (mkBatch 1 10 1) 10
    (of_decide_eq_true (by with_unfolding_all rfl))
    (of_decide_eq_true (by with_unfolding_all rfl))

/-! ## C1 -/

/-- A material short of the recipe requirement. -/
def c1Material : Material := { id := 7, name := "Flakon", stock_qty := 2, cost_per_unit := 1 }

/-- A zero-fill container (`fill_volume_ml` is a PositiveIntegerField,
which admits 0), so the commit requires no oil and the oil loop
inserts nothing; the recipe still needs five units of material 7 per
unit produced. -/
def c1Recipe : Recipe :=
  { container := { id := 11, fill_volume_ml := 0, loss_factor_oil_percent := 2
                   price_retail := 20 }
    active := true
    components := [oilComponent 40,
      { component_kind := ComponentKind.PACKAGING_BOTTLE, material_id := some 7
        qty_required := 5, unit := "PCS" }] }

/-- Too little material, no oil involved. -/
def c1DB : DB :=
  { oil_batches := [], materials := [c1Material]
    productions := [], usages := [], produced_items := [], sales := [] }

/-- The request of the failing scenario. -/
def c1Req : CommitRequest := { container_id := 11, qty := 1, oil_batch_ids := [] }

/-- The state the failing commit actually persists. -/
def c1Final : DB := (commitProduction [c1Recipe] c1Req freshUids c1DB).db

set_option maxRecDepth 100000 in
/-- C1: the material-sufficiency failure is answered with
`return Response(status=400)` from inside the atomic block — a
normal block exit, which Django commits.  At this failing input the
endpoint reports insufficient material yet persists the Production
row stuck in the non-terminal READY status: a partial production
state is a valid persisted end state, refuting the rollback the
claim requires.  (The oil-decremented variant named in the claim is
unreachable: any oil decrement aborts at its own usage-row insert
with FieldError and rolls back.) -/
theorem material_shortfall_persists_ready_production :
    commitProduction [c1Recipe] c1Req freshUids c1DB =
      CommitResult.err400 (ClientError.insufficientMaterial "Flakon" 5 2) c1Final ∧
    c1Final.productions.map (fun p => (p.id, p.status)) =
      [(1, ProductionStatus.READY)] ∧
    c1Final.oil_batches = c1DB.oil_batches ∧
    c1Final.materials = c1DB.materials ∧
    c1Final.usages = [] ∧
    c1Final ≠ c1DB :=
  of_decide_eq_true (by with_unfolding_all rfl)

/-! ## C6 -/

/-- An oil-free recipe (zero-fill container, no components), so the
commit reaches the produced-item stage with nothing consumed. -/
def c6Recipe : Recipe :=
  { container := { id := 13, fill_volume_ml := 0, loss_factor_oil_percent := 0
                   price_retail := 20 }
    active := true, components := [] }

/-- An empty pre-request ledger. -/
def c6DB : DB :=
  { oil_batches := [], materials := [], productions := []
    usages := [], produced_items := [], sales := [] }

/-- A one-unit request against that recipe. -/
def c6Req : CommitRequest := { container_id := 13, qty := 1, oil_batch_ids := [] }

/-- C6: no retry machinery exists — and no uid collision is even
reachable.  The generator calls `secrets.choices`, an attribute the
secrets module does not have, so the very first draw raises
AttributeError before any ProducedItem INSERT: the produced-item
loop aborts on every state whenever at least one unit is requested,
the transaction rolls back and the endpoint returns 500.  There is
no regeneration, no bounded retry and no IdentifierExhausted error
anywhere in the code, and no insert ever runs that a unique
constraint could reject. -/
theorem uid_generation_failure_aborts :
    commitProduction [c6Recipe] c6Req freshUids c6DB = CommitResult.err500 c6DB ∧
    (commitProduction [c6Recipe] c6Req freshUids c6DB).db.produced_items = [] ∧
    (∀ db : DB, producedLoop 1 db = none) :=
  ⟨of_decide_eq_true (by with_unfolding_all rfl),
   of_decide_eq_true (by with_unfolding_all rfl),
   fun _ => rfl⟩

/-! ## C3 -/

/-- C3: whenever the summed remaining quantity of the candidate
AVAILABLE oil batches is below the required oil volume, the commit
returns the insufficient-oil error carrying exactly the required and
available amounts, and the persisted state is the unchanged
pre-request state: no stock mutation and no Production row (in
particular none in a non-terminal status). -/
theorem insufficient_oil_aborts_unmutated (recipes : List Recipe)
    (req : CommitRequest) (uids : Nat → String) (db : DB) (recipe : Recipe)
    (hrec : getActiveRecipe recipes req.container_id = some recipe)
    (hlt : availableOil db req.oil_batch_ids < requiredOil recipe.container req.qty) :
    commitProduction recipes req uids db =
      CommitResult.err400
        (ClientError.insufficientOil (requiredOil recipe.container req.qty)
          (availableOil db req.oil_batch_ids)) db := by
  unfold commitProduction
  rw [hrec]
  simp [commitAfterRecipe, hlt]

/-- The second worked example of the specification: a single 300 ml
batch against a 408 ml requirement. -/
def c3DB : DB :=
  { oil_batches := [mkBatch 1 300 1], materials := [], productions := []
    usages := [], produced_items := [], sales := [] }

/-- The request of that example. -/
def c3Req : CommitRequest := { container_id := 5, qty := 10, oil_batch_ids := [1] }

/-- C3 witness: with 300 ml available against 408 ml required the
commit rejects with the two amounts and leaves the state untouched. -/
theorem insufficient_oil_aborts_unmutated_witness :
    commitProduction [exRecipe] c3Req freshUids c3DB =
      CommitResult.err400
        (ClientError.insufficientOil (requiredOil exRecipe.container c3Req.qty)
          (availableOil c3DB c3Req.oil_batch_ids)) c3DB :=
  insufficient_oil_aborts_unmutated [exRecipe] c3Req freshUids c3DB exRecipe
    rfl (of_decide_eq_true (by with_unfolding_all rfl))

/-! ## C7 -/

/-- A successful receive loop rewrites every line item, in order,
with exactly the allocation computed at orders/views.py lines 56-67. -/
lemma receiveLoop_items_shape (now total ship customs : ℚ) :
    ∀ (items acc : List OrderItem) (mats : List Material) (obs : List OilBatch)
      (out : List OrderItem) (m2 : List Material) (o2 : List OilBatch),
      receiveLoop now total ship customs items acc mats obs = some (out, m2, o2) →
      out = acc ++ items.map (allocItem total ship customs) := by
  intro items
  induction items with
  | nil =>
    intro acc mats obs out m2 o2 h
    rw [receiveLoop] at h
    simp at h
    simp [h.1]
  | cons item rest ih =>
    intro acc mats obs out m2 o2 h
    rw [receiveLoop] at h
    split at h
    · exact absurd h (by simp)
    · split at h
      · dsimp only at h
        split at h
        · exact absurd h (by simp)
        · have := ih _ _ _ _ _ _ h
          simp [this]
      · dsimp only at h
        split at h
        · exact absurd h (by simp)
        · have := ih _ _ _ _ _ _ h
          simp [this]

/-- Summing a proportional share over a list factors through the sum
of the underlying values. -/
lemma sum_proportional (c T : ℚ) (f : OrderItem → ℚ) (l : List OrderItem) :
    (l.map fun i => c * (f i / T)).sum = c * ((l.map f).sum / T) := by
  induction l with
  | nil => simp
  | cons a tl ih =>
    simp only [List.map_cons, List.sum_cons, ih]
    ring

/-- C7: for every successfully received order, each line item ends up
with exactly the proportional allocation
`allocated_shipping = shipping_cost × value_i / Σ value_j` (and
likewise for customs, with the effective loaded cost per unit as
computed by `allocItem`), and the allocations add up exactly — not
merely within rounding — to the order-level shipping and customs
costs. -/
theorem receipt_allocation_exact (now : ℚ) (s : OrderDB) (s2 : OrderDB)
    (hok : receive now s = ReceiveResult.ok s2) :
    s2.items = s.items.map (allocItem (totalItemsValue s.items)
        s.order.shipping_cost s.order.customs_cost) ∧
    (s2.items.map OrderItem.allocated_shipping).sum = s.order.shipping_cost ∧
    (s2.items.map OrderItem.allocated_customs).sum = s.order.customs_cost := by
  rw [receive] at hok
  split at hok
  · exact absurd hok (by simp)
  · dsimp only at hok
    split at hok
    · exact absurd hok (by simp)
    · rename_i htot
      cases heq : receiveLoop now (totalItemsValue s.items) s.order.shipping_cost
          s.order.customs_cost s.items [] s.materials s.oil_batches with
      | none =>
        rw [heq] at hok
        exact absurd hok (by simp)
      | some trip =>
        obtain ⟨items2, mats2, obs2⟩ := trip
        rw [heq] at hok
        dsimp only at hok
        have hitems : s2.items = items2 := by
          cases hok
          rfl
        have hshape := receiveLoop_items_shape now (totalItemsValue s.items)
          s.order.shipping_cost s.order.customs_cost s.items [] s.materials
          s.oil_batches items2 mats2 obs2 heq
        simp only [List.nil_append] at hshape
        have hship : OrderItem.allocated_shipping ∘
            allocItem (totalItemsValue s.items) s.order.shipping_cost
              s.order.customs_cost =
            fun i => s.order.shipping_cost *
              ((i.qty * i.unit_cost) / totalItemsValue s.items) := by
          funext i
          simp [allocItem, Function.comp]
        have hcust : OrderItem.allocated_customs ∘
            allocItem (totalItemsValue s.items) s.order.shipping_cost
              s.order.customs_cost =
            fun i => s.order.customs_cost *
              ((i.qty * i.unit_cost) / totalItemsValue s.items) := by
          funext i
          simp [allocItem, Function.comp]
        refine ⟨by rw [hitems, hshape], ?_, ?_⟩
        · rw [hitems, hshape, List.map_map, hship, sum_proportional,
            show ((s.items.map fun i => i.qty * i.unit_cost).sum) =
              totalItemsValue s.items from rfl, div_self htot, mul_one]
        · rw [hitems, hshape, List.map_map, hcust, sum_proportional,
            show ((s.items.map fun i => i.qty * i.unit_cost).sum) =
              totalItemsValue s.items from rfl, div_self htot, mul_one]

/-- The order-receipt worked example of the specification: two
material lines valued 100 and 300, shipping cost 40 (customs 8). -/
def c7DB : OrderDB :=
  { order := { id := 1, shipping_cost := 40, customs_cost := 8, received := false }
    items := [{ id := 1, target_type := TargetType.MATERIAL, target_id := 1
                qty := 1, unit_cost := 100, allocated_shipping := 0
                allocated_customs := 0, effective_cost_per_unit := 0 },
              { id := 2, target_type := TargetType.MATERIAL, target_id := 2
                qty := 1, unit_cost := 300, allocated_shipping := 0
                allocated_customs := 0, effective_cost_per_unit := 0 }]
    materials := [{ id := 1, name := "A", stock_qty := 10, cost_per_unit := 2 },
                  { id := 2, name := "B", stock_qty := 0, cost_per_unit := 0 }]
    oil_batches := [] }

/-- C7 witness: the allocation identities at the concrete order
(item 1 receives shipping 10, item 2 receives 30, summing to 40). -/
theorem receipt_allocation_exact_witness :
    ((receive 100 c7DB).state.items = c7DB.items.map
      (allocItem (totalItemsValue c7DB.items) c7DB.order.shipping_cost
        c7DB.order.customs_cost)) ∧
    (((receive 100 c7DB).state.items.map OrderItem.allocated_shipping).sum =
      c7DB.order.shipping_cost) ∧
    (((receive 100 c7DB).state.items.map OrderItem.allocated_customs).sum =
      c7DB.order.customs_cost) :=
  receipt_allocation_exact 100 c7DB ((receive 100 c7DB).state)
    (of_decide_eq_true (by with_unfolding_all rfl))

/-! ## C8 -/

/-- An already-received order state. -/
def receivedOrderDB : OrderDB :=
  { order := { id := 1, shipping_cost := 40, customs_cost := 8, received := true }
    items := [{ id := 1, target_type := TargetType.MATERIAL, target_id := 1
                qty := 1, unit_cost := 100, allocated_shipping := 0
                allocated_customs := 0, effective_cost_per_unit := 0 }]
    materials := [{ id := 1, name := "A", stock_qty := 10, cost_per_unit := 2 }]
    oil_batches := [] }

/-- C8: receipt is idempotent-guarded.  First, a receive call on an
already-received Order is answered with the already-received error,
taken before the atomic block, and the carried state is exactly the
pre-call state.  Second, `received_at` is set only after all line
items are processed: a successful receive starts from a
not-yet-received order, marks it received, and its item table is
exactly the full allocation map over every line item.  Third, in
every non-successful outcome the persisted state is exactly the
pre-call state, so the received flag is never set early and nothing
else — items, materials, oil batches — is mutated. -/
theorem receive_idempotent_guarded (now : ℚ) (s : OrderDB) :
    (s.order.received = true → receive now s = ReceiveResult.alreadyReceived s) ∧
    (∀ s2, receive now s = ReceiveResult.ok s2 →
      s.order.received = false ∧
      s2.order = { s.order with received := true } ∧
      s2.items = s.items.map (allocItem (totalItemsValue s.items)
        s.order.shipping_cost s.order.customs_cost)) ∧
    (∀ s2, receive now s = ReceiveResult.alreadyReceived s2 ∨
        receive now s = ReceiveResult.zeroValue s2 ∨
        receive now s = ReceiveResult.err500 s2 →
      s2 = s) := by
  refine ⟨?_, ?_, ?_⟩
  · intro h
    simp [receive, h]
  · intro s2 hok
    rw [receive] at hok
    split at hok
    · exact absurd hok (by simp)
    · rename_i hrecv
      dsimp only at hok
      split at hok
      · exact absurd hok (by simp)
      · cases heq : receiveLoop now (totalItemsValue s.items) s.order.shipping_cost
            s.order.customs_cost s.items [] s.materials s.oil_batches with
        | none =>
          rw [heq] at hok
          exact absurd hok (by simp)
        | some trip =>
          obtain ⟨items2, mats2, obs2⟩ := trip
          rw [heq] at hok
          dsimp only at hok
          cases hok
          refine ⟨by simpa using hrecv, rfl, ?_⟩
          have hshape := receiveLoop_items_shape now (totalItemsValue s.items)
            s.order.shipping_cost s.order.customs_cost s.items [] s.materials
            s.oil_batches items2 mats2 obs2 heq
          simpa using hshape
  · intro s2 h
    rw [receive] at h
    split at h
    · rcases h with h | h | h
      · injection h with h2
        exact h2.symm
      · exact absurd h (by simp)
      · exact absurd h (by simp)
    · dsimp only at h
      split at h
      · rcases h with h | h | h
        · exact absurd h (by simp)
        · injection h with h2
          exact h2.symm
        · exact absurd h (by simp)
      · cases heq : receiveLoop now (totalItemsValue s.items) s.order.shipping_cost
            s.order.customs_cost s.items [] s.materials s.oil_batches with
        | none =>
          rw [heq] at h
          rcases h with h | h | h
          · exact absurd
              (show ReceiveResult.err500 s = ReceiveResult.alreadyReceived s2 from h)
              (by simp)
          · exact absurd
              (show ReceiveResult.err500 s = ReceiveResult.zeroValue s2 from h)
              (by simp)
          · have h2 : ReceiveResult.err500 s = ReceiveResult.err500 s2 := h
            injection h2 with h3
            exact h3.symm
        | some trip =>
          obtain ⟨items2, mats2, obs2⟩ := trip
          rw [heq] at h
          dsimp only at h
          rcases h with h | h | h <;> exact absurd h (by simp)

/-- C8 witness: the guard fires on a concrete already-received order
and returns it unchanged. -/
theorem receive_idempotent_guarded_witness :
    receive 100 receivedOrderDB = ReceiveResult.alreadyReceived receivedOrderDB :=
  (receive_idempotent_guarded 100 receivedOrderDB).1 rfl

/-! ## C4 -/

/-- A fully stocked commit scenario: lossless 10 ml container, one
30 ml batch against a 10 ml requirement, one material component
needing 2 of 5 units in stock — every sufficiency check passes. -/
def c4Recipe : Recipe :=
  { container := { id := 9, fill_volume_ml := 10, loss_factor_oil_percent := 0
                   price_retail := 20 }
    active := true
    components := [oilComponent 10,
      { component_kind := ComponentKind.ALCOHOL, material_id := some 7
        qty_required := 2, unit := "ML" }] }

/-- The stock state of that scenario. -/
def c4DB : DB :=
  { oil_batches := [mkBatch 1 30 1]
    materials := [{ id := 7, name := "Alk", stock_qty := 5, cost_per_unit := 1 }]
    productions := [], usages := [], produced_items := [], sales := [] }

/-- The request of that scenario. -/
def c4Req : CommitRequest := { container_id := 9, qty := 1, oil_batch_ids := [1] }

set_option maxRecDepth 100000 in
/-- C4: the premise is never realised — no production ever commits.
Every run of the commit endpoint fails (`isOk = false`) and persists
no ProductionComponentUsage row whatsoever: the usage-row INSERT
resolves its F-expression before/after stock values against
ProductionComponentUsage, which has no such columns, and raises
FieldError, aborting the transaction.  Even the fully stocked
scenario, where every sufficiency check passes, returns 500 with the
pre-request state, so the conservation invariant the claim states is
never witnessed by any committed production. -/
theorem no_production_ever_commits :
    (∀ (recipes : List Recipe) (req : CommitRequest) (uids : Nat → String) (db : DB),
        (commitProduction recipes req uids db).isOk = false ∧
        (commitProduction recipes req uids db).db.usages = db.usages) ∧
    commitProduction [c4Recipe] c4Req freshUids c4DB = CommitResult.err500 c4DB := by
  constructor
  · intro recipes req uids db
    rcases commitProduction_cases recipes req uids db with h | ⟨e, h⟩ | ⟨e, p, h, hst⟩ <;>
      rw [h] <;> exact ⟨rfl, rfl⟩
  · exact of_decide_eq_true (by with_unfolding_all rfl)

end LCREE
